import Mathlib

/-!
Verification of the voxel-field construction, volumetric writer and
orthogonal-projection emitter of ReadPhantom.py (repository
jorge-borbinha/ReadPhantom), shallowly embedded in Lean.

Conventions of the embedding:
* numpy arrays become Lean lists (`List ℤ` for the int arrays, `List ℚ` for
  the density array); densities and voxel resolutions are rationals, which is
  exact for every value the claims exercise;
* file writes become explicit data: a writer returns the list of lines it
  writes (without the trailing newline of each line);
* a raised ValueError becomes `Except.error`;
* Python percent/format-spec rendering of numbers is reimplemented on the
  reduced fraction num/den of a rational; ties in rounding are taken half
  away from zero, which agrees with CPython on every value that is an exact
  multiple of the requested precision (all values used by the claims).
-/

namespace ReadPhantom

/-- Left-pad a string with spaces to width `w` (Python right-justified
field behaviour; a string longer than the field is kept whole). -/
def padLeft (w : Nat) (s : String) : String :=
  if s.length < w then String.mk (List.replicate (w - s.length) ' ') ++ s else s

/-- Left-pad a string with zeros to `p` characters. -/
def padZeros (p : Nat) (s : String) : String :=
  if s.length < p then String.mk (List.replicate (p - s.length) '0') ++ s else s

/-- Python integer field formatting, as in a format spec `:wd`. -/
def fmtInt (w : Nat) (n : ℤ) : String := padLeft w (toString n)

/-- Python integer field formatting of a natural number. -/
def fmtNat (w : Nat) (n : Nat) : String := padLeft w (toString n)

/-- Python fixed-point formatting, as in a format spec `:w.pf`, of a rational
value: the magnitude is rounded to `p` decimal places (half away from zero),
rendered with a decimal point, then right-justified in a field of width `w`. -/
def fmtFixed (w p : Nat) (q : ℚ) : String :=
  let a := q.num.natAbs
  let b := q.den
  let n := (2 * a * 10 ^ p + b) / (2 * b)
  let core := toString (n / 10 ^ p) ++ "." ++ padZeros p (toString (n % 10 ^ p))
  padLeft w (if q.num < 0 then "-" ++ core else core)

/-- Fuel-driven base-10 logarithm: `log10Aux fuel n` is the floor of the
base-10 logarithm of `n` whenever `1 ≤ n ≤ fuel`. -/
def log10Aux : Nat → Nat → Nat
  | 0, _ => 0
  | fuel + 1, n => if n < 10 then 0 else log10Aux fuel (n / 10) + 1

/-- Floor of the base-10 logarithm of a positive natural number. -/
def log10 (n : Nat) : Nat := log10Aux n n

/-- Decides whether `10 ^ e ≤ a / b` for naturals `a`, `b` with `b ≠ 0`. -/
def pow10Le (a b : Nat) (e : ℤ) : Bool :=
  if 0 ≤ e then decide (b * 10 ^ e.toNat ≤ a) else decide (b ≤ a * 10 ^ (-e).toNat)

/-- Decimal exponent of a nonzero rational: the `e` with
`10 ^ e ≤ |q| < 10 ^ (e + 1)`. -/
def decExp (q : ℚ) : ℤ :=
  let a := q.num.natAbs
  let b := q.den
  let e0 : ℤ := (log10 a : ℤ) - (log10 b : ℤ)
  if pow10Le a b (e0 + 1) then e0 + 1 else if pow10Le a b e0 then e0 else e0 - 1

/-- Python scientific-notation formatting, as in a format spec `:.pe`:
a mantissa with `p` decimal digits (rounded half away from zero on the
magnitude) followed by a signed two-digit exponent. -/
def fmtSci (p : Nat) (q : ℚ) : String :=
  if q.num = 0 then "0." ++ padZeros p "" ++ "e+00"
  else
    let a := q.num.natAbs
    let b := q.den
    let e := decExp q
    let d : ℤ := (p : ℤ) - e
    let nd := if 0 ≤ d then (a * 10 ^ d.toNat, b) else (a, b * 10 ^ (-d).toNat)
    let m := (2 * nd.1 + nd.2) / (2 * nd.2)
    let me := if 10 ^ (p + 1) ≤ m then (m / 10, e + 1) else (m, e)
    let mant := toString (me.1 / 10 ^ p) ++ "." ++ padZeros p (toString (me.1 % 10 ^ p))
    (if q.num < 0 then "-" else "") ++ mant ++ "e" ++
      (if me.2 < 0 then "-" else "+") ++ padZeros 2 (toString me.2.natAbs)

/-- The fixed seven-line header of the .vox file (ReadPhantom.py lines 84-90). -/
def voxHeaderLines (n_vox_x n_vox_y n_vox_z : Nat) (vox_res_x vox_res_y vox_res_z : ℚ) :
    List String :=
  [ "[SECTION VOXELS HEADER v.2008-04-13]",
    " " ++ fmtNat 4 n_vox_x ++ fmtNat 4 n_vox_y ++ fmtNat 4 n_vox_z,
    " " ++ fmtFixed 7 5 vox_res_x ++ " " ++ fmtFixed 7 5 vox_res_y ++ " " ++
      fmtFixed 7 5 vox_res_z,
    " 1",
    " 2",
    " 0",
    "[END OF VXH SECTION]" ]

/-- The voxel data rows written by np.savetxt with format string
"%3d %7.4f", one row per (material, density) pair, in array order
(ReadPhantom.py lines 93-95). -/
def voxDataRows (arr_material : List ℤ) (arr_density : List ℚ) : List String :=
  List.zipWith (fun m d => fmtInt 3 m ++ " " ++ fmtFixed 7 4 d) arr_material arr_density

/-- File-system effect of create_vox_file (ReadPhantom.py lines 82-95).
A file system `fs` maps a path to the lines of the file stored there.
The seven header lines are written in mode 'w' to the caller-supplied
`vox_file`, but the data rows are appended in mode 'a' to the hard-coded
path "phantom.vox". -/
def create_vox_file (fs : String → List String) (vox_file : String)
    (arr_material : List ℤ) (arr_density : List ℚ) (n_vox_x n_vox_y n_vox_z : Nat)
    (vox_res_x vox_res_y vox_res_z : ℚ) : String → List String :=
  let fs1 : String → List String := fun p =>
    if p = vox_file then
      voxHeaderLines n_vox_x n_vox_y n_vox_z vox_res_x vox_res_y vox_res_z
    else fs p
  fun p =>
    if p = "phantom.vox" then fs1 p ++ voxDataRows arr_material arr_density else fs1 p

/-- One line of the body of a ct-den-mat file: the data line for one voxel,
or the single-space separator line. -/
inductive CtLine where
  | blank : CtLine
  | data (x y z : Nat) (den : ℚ) (mat org : ℤ) : CtLine
deriving DecidableEq

/-- The list a Python loop `for i in range(n)` builds by appending the block
`g i` at each iteration. -/
def forRange {α : Type} : Nat → (Nat → List α) → List α
  | 0, _ => []
  | n + 1, g => forRange n g ++ g n

/-- Body of a ct-den-mat file (ReadPhantom.py lines 278-291): a triple
nested loop over the counts in `loop_order`; each counter triple is mapped
through `order_indices` to voxel coordinates (x, y, z), the arrays are read
at linear index x + nx*(y + ny*z), and a separator line is appended after
each completed inner loop plus one more after each completed middle loop. -/
def ctBody (loop_order : Nat × Nat × Nat)
    (order_indices : Nat → Nat → Nat → Nat × Nat × Nat) (n_vox_x n_vox_y : Nat)
    (arr_density : List ℚ) (arr_material arr_organ : List ℤ) : List CtLine :=
  forRange loop_order.1 (fun i_loop =>
    forRange loop_order.2.1 (fun j_loop =>
      forRange loop_order.2.2 (fun k_loop =>
        let xyz := order_indices i_loop j_loop k_loop
        let counter := xyz.1 + n_vox_x * (xyz.2.1 + n_vox_y * xyz.2.2)
        [CtLine.data xyz.1 xyz.2.1 xyz.2.2 (arr_density.getD counter 0)
          (arr_material.getD counter 0) (arr_organ.getD counter 0)])
      ++ [CtLine.blank])
    ++ [CtLine.blank])

/-- Serialization of one body line, exactly as the f-string on line 287 and
the separator appends on lines 289/291 build it (without the newline). -/
def renderCtLine : CtLine → String
  | .blank => " "
  | .data x y z den mat org =>
      " " ++ fmtNat 3 (x + 1) ++ " " ++ fmtNat 3 (y + 1) ++ " " ++ fmtNat 3 (z + 1) ++
      " " ++ padLeft 7 (fmtSci 5 den) ++ " " ++ fmtInt 4 mat ++ " " ++ fmtInt 4 org

/-- The descriptive header of a ct-den-mat file (ReadPhantom.py
lines 264-274). -/
def ctHeaderLines (n_vox_x n_vox_y n_vox_z : Nat) (len_x len_y len_z : ℚ) :
    List String :=
  [ "#  CT structure (GNUPLOT format).",
    "#  CT enclosure limits:  XL = " ++ fmtSci 6 0 ++ " cm,  XU = " ++
      fmtSci 6 len_x ++ " cm",
    "#                       YL = " ++ fmtSci 6 0 ++ " cm,  YU = " ++
      fmtSci 6 len_y ++ " cm",
    "#                       ZL = " ++ fmtSci 6 0 ++ " cm,  ZU = " ++
      fmtSci 6 len_z ++ " cm",
    "#  Numbers of voxels:    NVX = " ++ toString n_vox_x ++ ", NVY = " ++
      toString n_vox_y ++ ", NVZ = " ++ toString n_vox_z,
    "#",
    "#",
    "#  columns 1 to 3: bin indices IX, IY and IZ",
    "#  4th column: density (g/cm**3).",
    "#  5th column: material. 6th column: organ ID",
    "#  CT structure (GNUPLOT format)." ]

/-- All lines of one ct-den-mat file: the header writes followed by the
writelines of the body (ReadPhantom.py lines 262-296). -/
def create_ct_den_mat_file (loop_order : Nat × Nat × Nat)
    (order_indices : Nat → Nat → Nat → Nat × Nat × Nat) (n_vox_x n_vox_y n_vox_z : Nat)
    (len_x len_y len_z : ℚ) (arr_density : List ℚ) (arr_material arr_organ : List ℤ) :
    List String :=
  ctHeaderLines n_vox_x n_vox_y n_vox_z len_x len_y len_z ++
    (ctBody loop_order order_indices n_vox_x n_vox_y arr_density arr_material
      arr_organ).map renderCtLine

/-- Axis mapping of the XY projection (ReadPhantom.py line 566). -/
def order_indices_xy : Nat → Nat → Nat → Nat × Nat × Nat := fun z y x => (x, y, z)

/-- Loop counts of the XY projection (ReadPhantom.py line 567). -/
def loop_order_xy (n_vox_x n_vox_y n_vox_z : Nat) : Nat × Nat × Nat :=
  (n_vox_z, n_vox_y, n_vox_x)

/-- Axis mapping of the XZ projection (ReadPhantom.py line 572). -/
def order_indices_xz : Nat → Nat → Nat → Nat × Nat × Nat := fun y x z => (x, y, z)

/-- Loop counts of the XZ projection (ReadPhantom.py line 573). -/
def loop_order_xz (n_vox_x n_vox_y n_vox_z : Nat) : Nat × Nat × Nat :=
  (n_vox_y, n_vox_x, n_vox_z)

/-- Axis mapping of the YZ projection (ReadPhantom.py line 578). -/
def order_indices_yz : Nat → Nat → Nat → Nat × Nat × Nat := fun x z y => (x, y, z)

/-- Loop counts of the YZ projection (ReadPhantom.py line 579). -/
def loop_order_yz (n_vox_x n_vox_y n_vox_z : Nat) : Nat × Nat × Nat :=
  (n_vox_x, n_vox_z, n_vox_y)

/-- One row of the organlist table: organ tag, material ID, density. -/
structure OrganRow where
  organId : ℤ
  matId : ℤ
  density : ℚ
deriving DecidableEq

/-- The three parallel per-voxel arrays of readPhantom. -/
structure FieldState where
  organ : List ℤ
  mat : List ℤ
  den : List ℚ
deriving DecidableEq

/-- One pass of the organlist loop (ReadPhantom.py lines 540-543): the
np.where(arr_organ == organ_id) mask assignment, written as a zipWith over
the organ array and the target array. -/
def applyRow (s : FieldState) (r : OrganRow) : FieldState :=
  { organ := s.organ
    mat := List.zipWith (fun o m => if o = r.organId then r.matId else m) s.organ s.mat
    den := List.zipWith (fun o d => if o = r.organId then r.density else d) s.organ s.den }

/-- The full organlist loop: rows applied in file order, so a later row with
the same organ tag overrides an earlier one. -/
def buildFields (rows : List OrganRow) (s : FieldState) : FieldState :=
  rows.foldl applyRow s

/-- The (material, density) pair the organlist rows leave assigned to an
organ tag: the last row carrying the tag wins; `none` when no row does. -/
def lookupTag : List OrganRow → ℤ → Option (ℤ × ℚ)
  | [], _ => none
  | r :: rs, t =>
      match lookupTag rs t with
      | some p => some p
      | none => if r.organId = t then some (r.matId, r.density) else none

/-- The fatal errors the run raises (spec names for the ValueErrors of
ReadPhantom.py lines 400 and 491). -/
inductive PhantomError where
  | invalidConfiguration : PhantomError
  | cardinalityMismatch (actual expected : Nat) : PhantomError
deriving DecidableEq

/-- One file write: target path, whether the file was opened in append
mode, and the lines written. -/
structure FileWrite where
  path : String
  append : Bool
  lines : List String

/-- Result of a successful run: the three built arrays, the value of the
negative-density test, and the file writes in program order. -/
structure RunOutput where
  fields : FieldState
  negFound : Bool
  writes : List FileWrite

/-- Run configuration collected from the prompts of readPhantom: voxel
counts, voxel resolutions and the declared number of materials. -/
structure PhantomConfig where
  nVoxX : Nat
  nVoxY : Nat
  nVoxZ : Nat
  voxResX : ℚ
  voxResY : ℚ
  voxResZ : ℚ
  materialNum : ℤ

/-- The post-input core of readPhantom (ReadPhantom.py lines 394-581), with
the external I/O (prompt collection, phantom-file and organlist decoding)
supplied as arguments: the materials check (line 400), the zero
initialisation of the arrays (lines 460-462), the cardinality check
(line 491), the negative-density test on the density array as it stands at
that point (lines 496-500), the organlist loop (lines 540-543), and the five
file writes in program order (lines 558-581).  A raised ValueError is an
`Except.error`; both checks precede every file write, so an error run
writes nothing. -/
def readPhantom (cfg : PhantomConfig) (organField : List ℤ) (rows : List OrganRow)
    (vox_file ct_file_xy ct_file_xz ct_file_yz : String) :
    Except PhantomError RunOutput :=
  let n_vox_tot := cfg.nVoxX * cfg.nVoxY * cfg.nVoxZ
  let len_x := cfg.voxResX * (cfg.nVoxX : ℚ)
  let len_y := cfg.voxResY * (cfg.nVoxY : ℚ)
  let len_z := cfg.voxResZ * (cfg.nVoxZ : ℚ)
  if cfg.materialNum ≤ 1 then
    .error .invalidConfiguration
  else if organField.length ≠ n_vox_tot then
    .error (.cardinalityMismatch organField.length n_vox_tot)
  else
    let arr_material : List ℤ := List.replicate n_vox_tot 0
    let arr_density : List ℚ := List.replicate n_vox_tot 0
    let negFound := arr_density.any fun d => decide (d < 0)
    let arr_density_1 := if negFound then arr_density.map (fun d => |d|) else arr_density
    let flds := buildFields rows
      { organ := organField, mat := arr_material, den := arr_density_1 }
    .ok
      { fields := flds
        negFound := negFound
        writes :=
          [ ⟨vox_file, false,
              voxHeaderLines cfg.nVoxX cfg.nVoxY cfg.nVoxZ cfg.voxResX cfg.voxResY
                cfg.voxResZ⟩,
            ⟨"phantom.vox", true, voxDataRows flds.mat flds.den⟩,
            ⟨ct_file_xy, false,
              create_ct_den_mat_file (loop_order_xy cfg.nVoxX cfg.nVoxY cfg.nVoxZ)
                order_indices_xy cfg.nVoxX cfg.nVoxY cfg.nVoxZ len_x len_y len_z
                flds.den flds.mat flds.organ⟩,
            ⟨ct_file_xz, false,
              create_ct_den_mat_file (loop_order_xz cfg.nVoxX cfg.nVoxY cfg.nVoxZ)
                order_indices_xz cfg.nVoxX cfg.nVoxY cfg.nVoxZ len_x len_y len_z
                flds.den flds.mat flds.organ⟩,
            ⟨ct_file_yz, false,
              create_ct_den_mat_file (loop_order_yz cfg.nVoxX cfg.nVoxY cfg.nVoxZ)
                order_indices_yz cfg.nVoxX cfg.nVoxY cfg.nVoxZ len_x len_y len_z
                flds.den flds.mat flds.organ⟩ ] }

/-- Field arrays of a run; an error run has no arrays. -/
def runFields : Except PhantomError RunOutput → FieldState
  | .ok o => o.fields
  | .error _ => ⟨[], [], []⟩

/-- Whether the run completed without a raised error. -/
def runOk : Except PhantomError RunOutput → Bool
  | .ok _ => true
  | .error _ => false

/-- Value of the negative-density test during the run. -/
def runNegFound : Except PhantomError RunOutput → Bool
  | .ok o => o.negFound
  | .error _ => false

/-- Final content of the file at path `p` after the run, replaying the write
events: a mode-'w' write replaces the content, a mode-'a' write appends.
An error run leaves every file absent (empty). -/
def fileContent : Except PhantomError RunOutput → String → List String
  | .error _, _ => []
  | .ok o, p =>
      o.writes.foldl
        (fun acc w => if w.path = p then (if w.append then acc ++ w.lines else w.lines)
          else acc) []

/-- Sample density array for a 2 x 2 x 2 grid, used by concrete witnesses. -/
def sampleDen : List ℚ := [1, 2, 3, 4, 5, 6, 7, 8]

/-- Sample material array for a 2 x 2 x 2 grid, used by concrete witnesses. -/
def sampleMat : List ℤ := [1, 2, 3, 4, 5, 6, 7, 8]

/-- Sample organ array for a 2 x 2 x 2 grid, used by concrete witnesses. -/
def sampleOrg : List ℤ := [1, 2, 3, 4, 5, 6, 7, 8]

/-! ## Structure of the loop-built body lists -/

theorem forRange_length {α : Type} (g : Nat → List α) (L : Nat)
    (h : ∀ t, (g t).length = L) : ∀ n, (forRange n g).length = n * L := by
  intro n
  induction n with
  | zero => simp [forRange]
  | succ n ih => simp only [forRange, List.length_append, ih, h n, Nat.succ_mul]

theorem forRange_getElem? {α : Type} (g : Nat → List α) (L : Nat)
    (h : ∀ t, (g t).length = L) :
    ∀ (n i r : Nat), i < n → r < L → (forRange n g)[i * L + r]? = (g i)[r]? := by
  intro n
  induction n with
  | zero => exact fun i r hi _ => absurd hi (Nat.not_lt_zero i)
  | succ n ih =>
    intro i r hi hr
    have hlen : (forRange n g).length = n * L := forRange_length g L h n
    rcases Nat.lt_succ_iff_lt_or_eq.mp hi with h1 | h1
    · have hmul : i * L + L ≤ n * L := by
        have h2 : (i + 1) * L ≤ n * L := Nat.mul_le_mul_right L h1
        rwa [Nat.add_mul, Nat.one_mul] at h2
      have hidx : i * L + r < (forRange n g).length :=
        hlen ▸ Nat.lt_of_lt_of_le (Nat.add_lt_add_left hr _) hmul
      simp only [forRange]
      rw [List.getElem?_append, if_pos hidx]
      exact ih i r h1 hr
    · subst h1
      simp only [forRange]
      rw [List.getElem?_append, hlen, if_neg (Nat.not_lt.mpr (Nat.le_add_right _ _)),
        Nat.add_sub_cancel_left]

/-- Version of the indexing lemma taking the flat index as a separate
argument, so that callers can supply the index arithmetic as an equation. -/
theorem forRange_getElem_of_eq {α : Type} (g : Nat → List α) (L : Nat)
    (h : ∀ t, (g t).length = L) (n i r idx : Nat) (hidx : idx = i * L + r)
    (hi : i < n) (hr : r < L) : (forRange n g)[idx]? = (g i)[r]? := by
  subst hidx
  exact forRange_getElem? g L h n i r hi hr

/-- In a triple nested loop that appends one element per innermost
iteration, a separator after each inner loop and one more after each middle
loop, the element of loop counters (i, j, k) sits at flat position
i * (n1 * (n2 + 1) + 1) + (j * (n2 + 1) + k). -/
theorem forRange3_data_getElem? {α : Type} (e : Nat → Nat → Nat → α) (b : α)
    (n0 n1 n2 i j k : Nat) (hi : i < n0) (hj : j < n1) (hk : k < n2) :
    (forRange n0 (fun i0 =>
        forRange n1 (fun j0 =>
          forRange n2 (fun k0 => [e i0 j0 k0]) ++ [b]) ++ [b]))[i * (n1 * (n2 + 1) + 1) +
            (j * (n2 + 1) + k)]? = some (e i j k) := by
  have hlen3 : ∀ i0 j0, (forRange n2 (fun k0 => [e i0 j0 k0])).length = n2 := by
    intro i0 j0
    simpa using forRange_length (fun k0 => [e i0 j0 k0]) 1 (fun _ => rfl) n2
  have hinner : ∀ i0 j0,
      (forRange n2 (fun k0 => [e i0 j0 k0]) ++ [b]).length = n2 + 1 := by
    intro i0 j0
    simp [hlen3 i0 j0]
  have hlen2 : ∀ i0,
      (forRange n1 (fun j0 => forRange n2 (fun k0 => [e i0 j0 k0]) ++ [b])).length =
        n1 * (n2 + 1) :=
    fun i0 => forRange_length _ (n2 + 1) (hinner i0) n1
  have houter : ∀ i0,
      (forRange n1 (fun j0 => forRange n2 (fun k0 => [e i0 j0 k0]) ++ [b]) ++ [b]).length =
        n1 * (n2 + 1) + 1 := by
    intro i0
    simp [hlen2 i0]
  have hr1 : j * (n2 + 1) + k < n1 * (n2 + 1) := by
    have h2 : j * (n2 + 1) + (n2 + 1) ≤ n1 * (n2 + 1) := by
      have h3 : (j + 1) * (n2 + 1) ≤ n1 * (n2 + 1) := Nat.mul_le_mul_right _ hj
      rwa [Nat.add_mul, Nat.one_mul] at h3
    exact Nat.lt_of_lt_of_le (Nat.add_lt_add_left (Nat.lt_succ_of_lt hk) _) h2
  rw [forRange_getElem_of_eq _ (n1 * (n2 + 1) + 1) houter n0 i (j * (n2 + 1) + k) _ rfl hi
    (Nat.lt_succ_of_lt hr1)]
  rw [List.getElem?_append, hlen2 i, if_pos hr1]
  rw [forRange_getElem_of_eq _ (n2 + 1) (hinner i) n1 j k _ rfl hj (Nat.lt_succ_of_lt hk)]
  rw [List.getElem?_append, hlen3 i j, if_pos hk]
  rw [forRange_getElem_of_eq (fun k0 => [e i j k0]) 1 (fun _ => rfl) n2 k 0 k (by omega) hk
    Nat.zero_lt_one]
  rfl

/-- The separator element appended after the inner loop of counters (i, j)
sits at flat position i * (n1 * (n2 + 1) + 1) + (j * (n2 + 1) + n2). -/
theorem forRange3_blank_inner {α : Type} (e : Nat → Nat → Nat → α) (b : α)
    (n0 n1 n2 i j : Nat) (hi : i < n0) (hj : j < n1) :
    (forRange n0 (fun i0 =>
        forRange n1 (fun j0 =>
          forRange n2 (fun k0 => [e i0 j0 k0]) ++ [b]) ++ [b]))[i * (n1 * (n2 + 1) + 1) +
            (j * (n2 + 1) + n2)]? = some b := by
  have hlen3 : ∀ i0 j0, (forRange n2 (fun k0 => [e i0 j0 k0])).length = n2 := by
    intro i0 j0
    simpa using forRange_length (fun k0 => [e i0 j0 k0]) 1 (fun _ => rfl) n2
  have hinner : ∀ i0 j0,
      (forRange n2 (fun k0 => [e i0 j0 k0]) ++ [b]).length = n2 + 1 := by
    intro i0 j0
    simp [hlen3 i0 j0]
  have hlen2 : ∀ i0,
      (forRange n1 (fun j0 => forRange n2 (fun k0 => [e i0 j0 k0]) ++ [b])).length =
        n1 * (n2 + 1) :=
    fun i0 => forRange_length _ (n2 + 1) (hinner i0) n1
  have houter : ∀ i0,
      (forRange n1 (fun j0 => forRange n2 (fun k0 => [e i0 j0 k0]) ++ [b]) ++ [b]).length =
        n1 * (n2 + 1) + 1 := by
    intro i0
    simp [hlen2 i0]
  have hr1 : j * (n2 + 1) + n2 < n1 * (n2 + 1) := by
    have h2 : j * (n2 + 1) + (n2 + 1) ≤ n1 * (n2 + 1) := by
      have h3 : (j + 1) * (n2 + 1) ≤ n1 * (n2 + 1) := Nat.mul_le_mul_right _ hj
      rwa [Nat.add_mul, Nat.one_mul] at h3
    exact Nat.lt_of_lt_of_le (Nat.add_lt_add_left (Nat.lt_succ_self n2) _) h2
  rw [forRange_getElem_of_eq _ (n1 * (n2 + 1) + 1) houter n0 i (j * (n2 + 1) + n2) _ rfl hi
    (Nat.lt_succ_of_lt hr1)]
  rw [List.getElem?_append, hlen2 i, if_pos hr1]
  rw [forRange_getElem_of_eq _ (n2 + 1) (hinner i) n1 j n2 _ rfl hj (Nat.lt_succ_self n2)]
  rw [List.getElem?_append, hlen3 i j, if_neg (Nat.lt_irrefl n2), Nat.sub_self]
  rfl

/-- The extra separator element appended after the middle loop of outer
counter i sits at flat position i * (n1 * (n2 + 1) + 1) + n1 * (n2 + 1). -/
theorem forRange3_blank_outer {α : Type} (e : Nat → Nat → Nat → α) (b : α)
    (n0 n1 n2 i : Nat) (hi : i < n0) :
    (forRange n0 (fun i0 =>
        forRange n1 (fun j0 =>
          forRange n2 (fun k0 => [e i0 j0 k0]) ++ [b]) ++ [b]))[i * (n1 * (n2 + 1) + 1) +
            n1 * (n2 + 1)]? = some b := by
  have hlen3 : ∀ i0 j0, (forRange n2 (fun k0 => [e i0 j0 k0])).length = n2 := by
    intro i0 j0
    simpa using forRange_length (fun k0 => [e i0 j0 k0]) 1 (fun _ => rfl) n2
  have hinner : ∀ i0 j0,
      (forRange n2 (fun k0 => [e i0 j0 k0]) ++ [b]).length = n2 + 1 := by
    intro i0 j0
    simp [hlen3 i0 j0]
  have hlen2 : ∀ i0,
      (forRange n1 (fun j0 => forRange n2 (fun k0 => [e i0 j0 k0]) ++ [b])).length =
        n1 * (n2 + 1) :=
    fun i0 => forRange_length _ (n2 + 1) (hinner i0) n1
  have houter : ∀ i0,
      (forRange n1 (fun j0 => forRange n2 (fun k0 => [e i0 j0 k0]) ++ [b]) ++ [b]).length =
        n1 * (n2 + 1) + 1 := by
    intro i0
    simp [hlen2 i0]
  rw [forRange_getElem_of_eq _ (n1 * (n2 + 1) + 1) houter n0 i (n1 * (n2 + 1)) _ rfl hi
    (Nat.lt_succ_self _)]
  rw [List.getElem?_append, hlen2 i, if_neg (Nat.lt_irrefl _), Nat.sub_self]
  rfl

/-! ## Claims about the projection emitter -/

/-- Claim C1: every projection file iterates the three axes in the fixed
permutation of the axis-order table (XY: outer z, middle y, inner x;
XZ: outer y, middle x, inner z; YZ: outer x, middle z, inner y), and the
line emitted at each loop triple reads all three arrays at linear index
x + nx*(y + ny*z) computed from the mapped coordinates; in particular, in
the XY projection the data line of voxel (0,0,0) precedes that of (1,0,0),
which precedes that of (0,1,0), which precedes that of (0,0,1). -/
theorem ct_den_mat_axis_order_correct (nx ny nz : Nat) (den : List ℚ)
    (mat org : List ℤ) :
    (∀ z y x, z < nz → y < ny → x < nx →
      (ctBody (loop_order_xy nx ny nz) order_indices_xy nx ny den mat
        org)[z * (ny * (nx + 1) + 1) + (y * (nx + 1) + x)]? =
        some (CtLine.data x y z (den.getD (x + nx * (y + ny * z)) 0)
          (mat.getD (x + nx * (y + ny * z)) 0) (org.getD (x + nx * (y + ny * z)) 0))) ∧
    (∀ y x z, y < ny → x < nx → z < nz →
      (ctBody (loop_order_xz nx ny nz) order_indices_xz nx ny den mat
        org)[y * (nx * (nz + 1) + 1) + (x * (nz + 1) + z)]? =
        some (CtLine.data x y z (den.getD (x + nx * (y + ny * z)) 0)
          (mat.getD (x + nx * (y + ny * z)) 0) (org.getD (x + nx * (y + ny * z)) 0))) ∧
    (∀ x z y, x < nx → z < nz → y < ny →
      (ctBody (loop_order_yz nx ny nz) order_indices_yz nx ny den mat
        org)[x * (nz * (ny + 1) + 1) + (z * (ny + 1) + y)]? =
        some (CtLine.data x y z (den.getD (x + nx * (y + ny * z)) 0)
          (mat.getD (x + nx * (y + ny * z)) 0) (org.getD (x + nx * (y + ny * z)) 0))) ∧
    (2 ≤ nx → 2 ≤ ny → 2 ≤ nz →
      (ctBody (loop_order_xy nx ny nz) order_indices_xy nx ny den mat
        org)[(0 : Nat)]? =
        some (CtLine.data 0 0 0 (den.getD 0 0) (mat.getD 0 0) (org.getD 0 0)) ∧
      (ctBody (loop_order_xy nx ny nz) order_indices_xy nx ny den mat
        org)[(1 : Nat)]? =
        some (CtLine.data 1 0 0 (den.getD 1 0) (mat.getD 1 0) (org.getD 1 0)) ∧
      (ctBody (loop_order_xy nx ny nz) order_indices_xy nx ny den mat
        org)[nx + 1]? =
        some (CtLine.data 0 1 0 (den.getD nx 0) (mat.getD nx 0) (org.getD nx 0)) ∧
      (ctBody (loop_order_xy nx ny nz) order_indices_xy nx ny den mat
        org)[ny * (nx + 1) + 1]? =
        some (CtLine.data 0 0 1 (den.getD (nx * ny) 0) (mat.getD (nx * ny) 0)
          (org.getD (nx * ny) 0)) ∧
      (0 : Nat) < 1 ∧ 1 < nx + 1 ∧ nx + 1 < ny * (nx + 1) + 1) := by
  have hXY : ∀ z y x, z < nz → y < ny → x < nx →
      (ctBody (loop_order_xy nx ny nz) order_indices_xy nx ny den mat
        org)[z * (ny * (nx + 1) + 1) + (y * (nx + 1) + x)]? =
        some (CtLine.data x y z (den.getD (x + nx * (y + ny * z)) 0)
          (mat.getD (x + nx * (y + ny * z)) 0) (org.getD (x + nx * (y + ny * z)) 0)) := by
    intro z y x hz hy hx
    exact forRange3_data_getElem?
      (fun i0 j0 k0 => CtLine.data k0 j0 i0 (den.getD (k0 + nx * (j0 + ny * i0)) 0)
        (mat.getD (k0 + nx * (j0 + ny * i0)) 0) (org.getD (k0 + nx * (j0 + ny * i0)) 0))
      CtLine.blank nz ny nx z y x hz hy hx
  refine ⟨hXY, ?_, ?_, ?_⟩
  · intro y x z hy hx hz
    exact forRange3_data_getElem?
      (fun i0 j0 k0 => CtLine.data j0 i0 k0 (den.getD (j0 + nx * (i0 + ny * k0)) 0)
        (mat.getD (j0 + nx * (i0 + ny * k0)) 0) (org.getD (j0 + nx * (i0 + ny * k0)) 0))
      CtLine.blank ny nx nz y x z hy hx hz
  · intro x z y hx hz hy
    exact forRange3_data_getElem?
      (fun i0 j0 k0 => CtLine.data i0 k0 j0 (den.getD (i0 + nx * (k0 + ny * j0)) 0)
        (mat.getD (i0 + nx * (k0 + ny * j0)) 0) (org.getD (i0 + nx * (k0 + ny * j0)) 0))
      CtLine.blank nx nz ny x z y hx hz hy
  · intro hx2 hy2 hz2
    have e000 := hXY 0 0 0 (by omega) (by omega) (by omega)
    have e100 := hXY 0 0 1 (by omega) (by omega) (by omega)
    have e010 := hXY 0 1 0 (by omega) (by omega) (by omega)
    have e001 := hXY 1 0 0 (by omega) (by omega) (by omega)
    have hlast : nx + 1 < ny * (nx + 1) + 1 := by
      have h := Nat.mul_le_mul_right (nx + 1) (show 1 ≤ ny by omega)
      rw [Nat.one_mul] at h
      exact Nat.lt_succ_of_le h
    refine ⟨by simpa using e000, by simpa using e100, by simpa using e010,
      by simpa using e001, by omega, by omega, hlast⟩

/-- Concrete instantiation of the C1 theorem on a 2 x 2 x 2 grid with the
sample arrays. -/
theorem ct_den_mat_axis_order_correct_witness :
    (ctBody (loop_order_xy 2 2 2) order_indices_xy 2 2 sampleDen sampleMat
      sampleOrg)[(4 : Nat)]? = some (CtLine.data 1 1 0 4 4 4) ∧
    (ctBody (loop_order_xz 2 2 2) order_indices_xz 2 2 sampleDen sampleMat
      sampleOrg)[(8 : Nat)]? = some (CtLine.data 0 1 1 7 7 7) ∧
    (ctBody (loop_order_yz 2 2 2) order_indices_yz 2 2 sampleDen sampleMat
      sampleOrg)[(10 : Nat)]? = some (CtLine.data 1 0 1 6 6 6) ∧
    (ctBody (loop_order_xy 2 2 2) order_indices_xy 2 2 sampleDen sampleMat
      sampleOrg)[(0 : Nat)]? = some (CtLine.data 0 0 0 1 1 1) ∧
    (ctBody (loop_order_xy 2 2 2) order_indices_xy 2 2 sampleDen sampleMat
      sampleOrg)[(1 : Nat)]? = some (CtLine.data 1 0 0 2 2 2) ∧
    (ctBody (loop_order_xy 2 2 2) order_indices_xy 2 2 sampleDen sampleMat
      sampleOrg)[(3 : Nat)]? = some (CtLine.data 0 1 0 3 3 3) ∧
    (ctBody (loop_order_xy 2 2 2) order_indices_xy 2 2 sampleDen sampleMat
      sampleOrg)[(7 : Nat)]? = some (CtLine.data 0 0 1 5 5 5) := by
  have h := ct_den_mat_axis_order_correct 2 2 2 sampleDen sampleMat sampleOrg
  have h4 := h.2.2.2 (by decide) (by decide) (by decide)
  exact ⟨h.1 0 1 1 (by decide) (by decide) (by decide),
    h.2.1 1 0 1 (by decide) (by decide) (by decide),
    h.2.2.1 1 1 0 (by decide) (by decide) (by decide),
    h4.1, h4.2.1, h4.2.2.1, h4.2.2.2.1⟩

/-- Claim C8: in every projection body, one separator line is emitted after
each completed inner loop, one further separator line after each completed
outer iteration, and when the middle index is the last one the inner
separator is immediately followed by the outer separator, so two
consecutive separator lines end each outer block. -/
theorem ct_den_mat_blank_separators (lo0 lo1 lo2 : Nat)
    (f : Nat → Nat → Nat → Nat × Nat × Nat) (nx ny : Nat) (den : List ℚ)
    (mat org : List ℤ) (i j : Nat) (hi : i < lo0) (hj : j < lo1) :
    (ctBody (lo0, lo1, lo2) f nx ny den mat
      org)[i * (lo1 * (lo2 + 1) + 1) + (j * (lo2 + 1) + lo2)]? = some CtLine.blank ∧
    (ctBody (lo0, lo1, lo2) f nx ny den mat
      org)[i * (lo1 * (lo2 + 1) + 1) + lo1 * (lo2 + 1)]? = some CtLine.blank ∧
    (j = lo1 - 1 →
      i * (lo1 * (lo2 + 1) + 1) + (j * (lo2 + 1) + lo2) + 1 =
        i * (lo1 * (lo2 + 1) + 1) + lo1 * (lo2 + 1)) := by
  refine ⟨forRange3_blank_inner
      (fun i0 j0 k0 => CtLine.data (f i0 j0 k0).1 (f i0 j0 k0).2.1 (f i0 j0 k0).2.2
        (den.getD ((f i0 j0 k0).1 + nx * ((f i0 j0 k0).2.1 + ny * (f i0 j0 k0).2.2)) 0)
        (mat.getD ((f i0 j0 k0).1 + nx * ((f i0 j0 k0).2.1 + ny * (f i0 j0 k0).2.2)) 0)
        (org.getD ((f i0 j0 k0).1 + nx * ((f i0 j0 k0).2.1 + ny * (f i0 j0 k0).2.2)) 0))
      CtLine.blank lo0 lo1 lo2 i j hi hj,
    forRange3_blank_outer
      (fun i0 j0 k0 => CtLine.data (f i0 j0 k0).1 (f i0 j0 k0).2.1 (f i0 j0 k0).2.2
        (den.getD ((f i0 j0 k0).1 + nx * ((f i0 j0 k0).2.1 + ny * (f i0 j0 k0).2.2)) 0)
        (mat.getD ((f i0 j0 k0).1 + nx * ((f i0 j0 k0).2.1 + ny * (f i0 j0 k0).2.2)) 0)
        (org.getD ((f i0 j0 k0).1 + nx * ((f i0 j0 k0).2.1 + ny * (f i0 j0 k0).2.2)) 0))
      CtLine.blank lo0 lo1 lo2 i hi, ?_⟩
  intro hj1
  subst hj1
  obtain ⟨l, rfl⟩ : ∃ l, lo1 = l + 1 := ⟨lo1 - 1, by omega⟩
  simp only [Nat.add_sub_cancel]
  ring

/-- Concrete instantiation of the C8 theorem on a 2 x 2 x 2 XY body with the
sample arrays. -/
theorem ct_den_mat_blank_separators_witness :
    (ctBody (2, 2, 2) order_indices_xy 2 2 sampleDen sampleMat
      sampleOrg)[(12 : Nat)]? = some CtLine.blank ∧
    (ctBody (2, 2, 2) order_indices_xy 2 2 sampleDen sampleMat
      sampleOrg)[(13 : Nat)]? = some CtLine.blank ∧
    ((1 : Nat) = 2 - 1 →
      1 * (2 * (2 + 1) + 1) + (1 * (2 + 1) + 2) + 1 = 1 * (2 * (2 + 1) + 1) + 2 * (2 + 1)) := by
  have h := ct_den_mat_blank_separators 2 2 2 order_indices_xy 2 2 sampleDen sampleMat
    sampleOrg 1 1 (by decide) (by decide)
  exact ⟨h.1, h.2.1, h.2.2⟩

/-! ## The organlist loop and the run pipeline -/

theorem zipWith_getD {α β γ : Type} (f : α → β → γ) (d1 : α) (d2 : β) (d3 : γ) :
    ∀ (a : List α) (b : List β) (i : Nat), i < a.length → i < b.length →
      (List.zipWith f a b).getD i d3 = f (a.getD i d1) (b.getD i d2) := by
  intro a
  induction a with
  | nil => intro b i hi _; exact absurd hi (by simp)
  | cons x xs ih =>
    intro b i hi hb
    cases b with
    | nil => exact absurd hb (by simp)
    | cons y ys =>
      cases i with
      | zero => rfl
      | succ n =>
        have h1 : n < xs.length := by simpa using hi
        have h2 : n < ys.length := by simpa using hb
        simpa using ih ys n h1 h2

theorem getD_replicate_of_lt {α : Type} (x d : α) :
    ∀ (n i : Nat), i < n → (List.replicate n x).getD i d = x := by
  intro n
  induction n with
  | zero => intro i hi; exact absurd hi (Nat.not_lt_zero i)
  | succ n ih =>
    intro i hi
    cases i with
    | zero => rfl
    | succ m =>
      rw [List.replicate_succ]
      exact ih m (by omega)

theorem any_replicate_zero_neg_false (n : Nat) :
    (List.replicate n (0 : ℚ)).any (fun d => decide (d < 0)) = false := by
  induction n with
  | zero => rfl
  | succ n ih =>
    rw [List.replicate_succ, List.any_cons, ih]
    decide

/-- After the whole organlist loop, a voxel whose organ tag matches some row
carries the (material, density) of the last matching row, and a voxel whose
tag matches no row keeps its initial values. -/
theorem lookupTag_cons (r : OrganRow) (rs : List OrganRow) (t : ℤ) :
    lookupTag (r :: rs) t =
      match lookupTag rs t with
      | some p => some p
      | none => if r.organId = t then some (r.matId, r.density) else none := rfl

theorem buildFields_getD (rows : List OrganRow) :
    ∀ (og mt : List ℤ) (dn : List ℚ), mt.length = og.length → dn.length = og.length →
      ∀ i, i < og.length →
        ((∀ m d, lookupTag rows (og.getD i 0) = some (m, d) →
            (buildFields rows ⟨og, mt, dn⟩).mat.getD i 0 = m ∧
            (buildFields rows ⟨og, mt, dn⟩).den.getD i 0 = d) ∧
         (lookupTag rows (og.getD i 0) = none →
            (buildFields rows ⟨og, mt, dn⟩).mat.getD i 0 = mt.getD i 0 ∧
            (buildFields rows ⟨og, mt, dn⟩).den.getD i 0 = dn.getD i 0)) := by
  induction rows with
  | nil =>
    intro og mt dn hm hd i hi
    exact ⟨fun m d h => by simp [lookupTag] at h, fun _ => ⟨rfl, rfl⟩⟩
  | cons r rs ih =>
    intro og mt dn hm hd i hi
    have hb : buildFields (r :: rs) ⟨og, mt, dn⟩ =
        buildFields rs ⟨og,
          List.zipWith (fun o m => if o = r.organId then r.matId else m) og mt,
          List.zipWith (fun o d => if o = r.organId then r.density else d) og dn⟩ := rfl
    have hIH := ih og
      (List.zipWith (fun o m => if o = r.organId then r.matId else m) og mt)
      (List.zipWith (fun o d => if o = r.organId then r.density else d) og dn)
      (by rw [List.length_zipWith, hm, Nat.min_self])
      (by rw [List.length_zipWith, hd, Nat.min_self]) i hi
    have hmat1 : (List.zipWith (fun o m => if o = r.organId then r.matId else m) og
        mt).getD i 0 = if og.getD i 0 = r.organId then r.matId else mt.getD i 0 :=
      zipWith_getD _ 0 0 0 og mt i hi (by omega)
    have hden1 : (List.zipWith (fun o d => if o = r.organId then r.density else d) og
        dn).getD i 0 = if og.getD i 0 = r.organId then r.density else dn.getD i 0 :=
      zipWith_getD _ 0 0 0 og dn i hi (by omega)
    rw [hb]
    cases hlk : lookupTag rs (og.getD i 0) with
    | some p =>
      have hlk2 : lookupTag (r :: rs) (og.getD i 0) = some p := by
        rw [lookupTag_cons, hlk]
      refine ⟨fun m d hmd => ?_, fun hnone => ?_⟩
      · rw [hlk2] at hmd
        injection hmd with hpd
        exact hIH.1 m d (by rw [hlk, hpd])
      · rw [hlk2] at hnone
        exact absurd hnone (by simp)
    | none =>
      have hlk2 : lookupTag (r :: rs) (og.getD i 0) =
          if r.organId = og.getD i 0 then some (r.matId, r.density) else none := by
        rw [lookupTag_cons, hlk]
      have hbase := hIH.2 hlk
      refine ⟨fun m d hmd => ?_, fun hnone => ?_⟩
      · rw [hlk2] at hmd
        by_cases hc : r.organId = og.getD i 0
        · rw [if_pos hc] at hmd
          injection hmd with hpair
          have hm2 : m = r.matId := (congrArg Prod.fst hpair).symm
          have hd2 : d = r.density := (congrArg Prod.snd hpair).symm
          subst hm2
          subst hd2
          exact ⟨by rw [hbase.1, hmat1, if_pos hc.symm],
            by rw [hbase.2, hden1, if_pos hc.symm]⟩
        · rw [if_neg hc] at hmd
          exact absurd hmd (by simp)
      · rw [hlk2] at hnone
        have hc : ¬ (r.organId = og.getD i 0) := fun h => by
          rw [if_pos h] at hnone
          exact absurd hnone (by simp)
        exact ⟨by rw [hbase.1, hmat1, if_neg (fun h => hc h.symm)],
          by rw [hbase.2, hden1, if_neg (fun h => hc h.symm)]⟩

/-- With a valid material count and matching cardinality, the run succeeds
and its arrays are the ones the organlist loop produces from the
zero-initialised arrays. -/
theorem readPhantom_ok_fields (cfg : PhantomConfig) (organField : List ℤ)
    (rows : List OrganRow) (vox_file ct_file_xy ct_file_xz ct_file_yz : String)
    (hm : 1 < cfg.materialNum)
    (hlen : organField.length = cfg.nVoxX * cfg.nVoxY * cfg.nVoxZ) :
    runFields (readPhantom cfg organField rows vox_file ct_file_xy ct_file_xz
      ct_file_yz) =
      buildFields rows
        { organ := organField
          mat := List.replicate (cfg.nVoxX * cfg.nVoxY * cfg.nVoxZ) 0
          den := List.replicate (cfg.nVoxX * cfg.nVoxY * cfg.nVoxZ) 0 } := by
  have h1 : ¬ (cfg.materialNum ≤ 1) := by omega
  simp [readPhantom, h1, hlen, any_replicate_zero_neg_false, runFields]

/-! ## Claims about the voxel-field builder and the run -/

/-- Claim C5: after the build, every voxel whose organ tag is carried by an
organlist row holds exactly that row's (material, density) pair (the last
matching row when tags repeat), and every voxel whose tag is absent from the
organlist holds material 0 and density 0 — absence is not an error. -/
theorem lookup_round_trip (cfg : PhantomConfig) (organField : List ℤ)
    (rows : List OrganRow) (vox_file ct_file_xy ct_file_xz ct_file_yz : String)
    (hm : 1 < cfg.materialNum)
    (hlen : organField.length = cfg.nVoxX * cfg.nVoxY * cfg.nVoxZ)
    (i : Nat) (hi : i < organField.length) :
    (∀ m d, lookupTag rows (organField.getD i 0) = some (m, d) →
      (runFields (readPhantom cfg organField rows vox_file ct_file_xy ct_file_xz
        ct_file_yz)).mat.getD i 0 = m ∧
      (runFields (readPhantom cfg organField rows vox_file ct_file_xy ct_file_xz
        ct_file_yz)).den.getD i 0 = d) ∧
    (lookupTag rows (organField.getD i 0) = none →
      (runFields (readPhantom cfg organField rows vox_file ct_file_xy ct_file_xz
        ct_file_yz)).mat.getD i 0 = 0 ∧
      (runFields (readPhantom cfg organField rows vox_file ct_file_xy ct_file_xz
        ct_file_yz)).den.getD i 0 = 0) := by
  rw [readPhantom_ok_fields cfg organField rows vox_file ct_file_xy ct_file_xz
    ct_file_yz hm hlen]
  have hs := buildFields_getD rows organField
    (List.replicate (cfg.nVoxX * cfg.nVoxY * cfg.nVoxZ) 0)
    (List.replicate (cfg.nVoxX * cfg.nVoxY * cfg.nVoxZ) 0)
    (by simp [hlen]) (by simp [hlen]) i hi
  refine ⟨hs.1, fun hn => ?_⟩
  have h2 := hs.2 hn
  rwa [getD_replicate_of_lt (0 : ℤ) 0 _ i (by omega),
    getD_replicate_of_lt (0 : ℚ) 0 _ i (by omega)] at h2

/-- Concrete instantiation of the C5 theorem: one voxel with tag 7, one
organlist row (7, 3, 5); after the run the voxel holds material 3 and
density 5. -/
theorem lookup_round_trip_witness :
    (runFields (readPhantom ⟨1, 1, 1, 1, 1, 1, 2⟩ [7] [⟨7, 3, 5⟩] "phantom.vox"
      "ct-den-matXY.dat" "ct-den-matXZ.dat" "ct-den-matYZ.dat")).mat.getD 0 0 = 3 ∧
    (runFields (readPhantom ⟨1, 1, 1, 1, 1, 1, 2⟩ [7] [⟨7, 3, 5⟩] "phantom.vox"
      "ct-den-matXY.dat" "ct-den-matXZ.dat" "ct-den-matYZ.dat")).den.getD 0 0 = 5 :=
  (lookup_round_trip ⟨1, 1, 1, 1, 1, 1, 2⟩ [7] [⟨7, 3, 5⟩] "phantom.vox"
    "ct-den-matXY.dat" "ct-den-matXZ.dat" "ct-den-matYZ.dat" (by decide) (by decide) 0
    (by decide)).1 3 5 (by decide)

/-- Claim C10: the organlist loop assigns only to the material and density
arrays; the organ array after the loop is element-for-element the organ
array before it. -/
theorem build_preserves_organ_field (rows : List OrganRow) (s : FieldState) :
    (buildFields rows s).organ = s.organ := by
  induction rows generalizing s with
  | nil => rfl
  | cons r rs ih => exact ih (applyRow s r)

/-- Claim C4: an organ field whose length differs from nx*ny*nz makes the
run fail with the cardinality-mismatch error carrying both the actual and
the expected count; the check precedes every file write (an error run
produces no writes), so no output file is written. -/
theorem cardinality_mismatch_aborts (cfg : PhantomConfig) (organField : List ℤ)
    (rows : List OrganRow) (vox_file ct_file_xy ct_file_xz ct_file_yz : String)
    (hm : 1 < cfg.materialNum)
    (hlen : organField.length ≠ cfg.nVoxX * cfg.nVoxY * cfg.nVoxZ) :
    readPhantom cfg organField rows vox_file ct_file_xy ct_file_xz ct_file_yz =
      .error (.cardinalityMismatch organField.length
        (cfg.nVoxX * cfg.nVoxY * cfg.nVoxZ)) := by
  have h1 : ¬ (cfg.materialNum ≤ 1) := by omega
  simp [readPhantom, h1, hlen]

/-- Concrete instantiation of the C4 theorem: 7 organ tags supplied for a
2 x 2 x 2 (8-voxel) grid. -/
theorem cardinality_mismatch_aborts_witness :
    readPhantom ⟨2, 2, 2, 1, 1, 1, 2⟩ [1, 1, 1, 1, 1, 1, 1] [] "phantom.vox"
        "ct-den-matXY.dat" "ct-den-matXZ.dat" "ct-den-matYZ.dat" =
      .error (.cardinalityMismatch 7 8) :=
  cardinality_mismatch_aborts ⟨2, 2, 2, 1, 1, 1, 2⟩ [1, 1, 1, 1, 1, 1, 1] []
    "phantom.vox" "ct-den-matXY.dat" "ct-den-matXZ.dat" "ct-den-matYZ.dat" (by decide)
    (by decide)

/-- Counterexample to claim C6 as stated: a configuration with a
non-positive voxel resolution (vox_res_x = 0) and a valid material count
runs to completion and writes its files instead of failing with the
invalid-configuration error — the code validates only the material count. -/
theorem nonpositive_resolution_not_rejected :
    runOk (readPhantom ⟨1, 1, 1, 0, 1, 1, 2⟩ [5] [⟨5, 1, 1⟩] "phantom.vox"
      "ct-den-matXY.dat" "ct-den-matXZ.dat" "ct-den-matYZ.dat") = true := by decide

/-- Claim C6 (amended): a declared material count of at most 1 makes the
run fail with the invalid-configuration error, and the check precedes every
file write; non-positive grid dimensions and non-positive voxel resolutions
are not validated. -/
theorem invalid_configuration_aborts (cfg : PhantomConfig) (organField : List ℤ)
    (rows : List OrganRow) (vox_file ct_file_xy ct_file_xz ct_file_yz : String)
    (hm : cfg.materialNum ≤ 1) :
    readPhantom cfg organField rows vox_file ct_file_xy ct_file_xz ct_file_yz =
      .error .invalidConfiguration := by
  simp [readPhantom, hm]

/-- Concrete instantiation of the amended C6 theorem: one declared material. -/
theorem invalid_configuration_aborts_witness :
    readPhantom ⟨1, 1, 1, 1, 1, 1, 1⟩ [1] [] "phantom.vox" "ct-den-matXY.dat"
        "ct-den-matXZ.dat" "ct-den-matYZ.dat" =
      .error .invalidConfiguration :=
  invalid_configuration_aborts ⟨1, 1, 1, 1, 1, 1, 1⟩ [1] [] "phantom.vox"
    "ct-den-matXY.dat" "ct-den-matXZ.dat" "ct-den-matYZ.dat" (by decide)

/-- Claim C3 is a code bug: the negative-density test of ReadPhantom.py
lines 496-500 runs before the organlist loop of lines 540-543 fills the
density array, so it only ever inspects the zero-initialised array and a
negative density from the organlist survives into the final field.
Evaluating the run at the failing input (one voxel with tag 1, one organlist
row (1, 1, -5)): the final density array is [-5], a negative value, and the
correction flag never fires. -/
theorem negative_density_survives_build :
    (runFields (readPhantom ⟨1, 1, 1, 1, 1, 1, 2⟩ [1] [⟨1, 1, -5⟩] "phantom.vox"
      "ct-den-matXY.dat" "ct-den-matXZ.dat" "ct-den-matYZ.dat")).den = [-5] ∧
    ((-5 : ℚ) < 0) ∧
    runNegFound (readPhantom ⟨1, 1, 1, 1, 1, 1, 2⟩ [1] [⟨1, 1, -5⟩] "phantom.vox"
      "ct-den-matXY.dat" "ct-den-matXZ.dat" "ct-den-matYZ.dat") = false :=
  ⟨by decide, by decide, by decide⟩

/-! ## Claims about the volumetric writer -/

/-- Claim C2 is a code bug: create_vox_file writes the seven header lines to
the caller-supplied path but appends the data rows to the hard-coded path
"phantom.vox" (ReadPhantom.py line 94), although its own docstring says the
data is appended to the output file named by the argument.  Evaluating at
the failing input vox_file = "output.vox" over an empty file system: the
file at the given path holds only the seven header lines, and the data rows
land in "phantom.vox". -/
theorem create_vox_file_data_rows_misdirected :
    (create_vox_file (fun _ => []) "output.vox" [1] [1] 1 1 1 1 1 1) "output.vox" =
      voxHeaderLines 1 1 1 1 1 1 ∧
    (voxHeaderLines 1 1 1 1 1 1).length = 7 ∧
    (create_vox_file (fun _ => []) "output.vox" [1] [1] 1 1 1 1 1 1) "phantom.vox" =
      voxDataRows [1] [1] ∧
    voxDataRows [1] [1] = ["  1  1.0000"] :=
  ⟨by decide, rfl, by decide, by decide⟩

/-- Counterexample to claim C9 as stated: on the spec's 2 x 2 x 2 scenario
the data rows of the volumetric file are not the strings the spec lists
(the "%3d %7.4f" format produces two leading spaces and two separator
spaces, not one). -/
theorem vox_rows_not_spec_strings :
    (fileContent (readPhantom ⟨2, 2, 2, 1, 1, 1, 4⟩ [1, 1, 2, 2, 3, 3, 4, 4]
      [⟨1, 1, 1⟩, ⟨2, 2, 2⟩, ⟨3, 3, 3⟩, ⟨4, 4, 4⟩] "phantom.vox" "ct-den-matXY.dat"
      "ct-den-matXZ.dat" "ct-den-matYZ.dat") "phantom.vox").drop 7 ≠
      [" 1 1.0000", " 1 1.0000", " 2 2.0000", " 2 2.0000",
       " 3 3.0000", " 3 3.0000", " 4 4.0000", " 4 4.0000"] := by decide

/-- Claim C9 (amended): on the spec's 2 x 2 x 2 scenario (organ tags
[1,1,2,2,3,3,4,4], rows (1,1,1), (2,2,2), (3,3,3), (4,4,4)) the volumetric
file's data rows are exactly "  1  1.0000", "  1  1.0000", "  2  2.0000",
"  2  2.0000", "  3  3.0000", "  3  3.0000", "  4  4.0000", "  4  4.0000",
in that order. -/
theorem vox_rows_concrete_grid :
    (fileContent (readPhantom ⟨2, 2, 2, 1, 1, 1, 4⟩ [1, 1, 2, 2, 3, 3, 4, 4]
      [⟨1, 1, 1⟩, ⟨2, 2, 2⟩, ⟨3, 3, 3⟩, ⟨4, 4, 4⟩] "phantom.vox" "ct-den-matXY.dat"
      "ct-den-matXZ.dat" "ct-den-matYZ.dat") "phantom.vox").drop 7 =
      ["  1  1.0000", "  1  1.0000", "  2  2.0000", "  2  2.0000",
       "  3  3.0000", "  3  3.0000", "  4  4.0000", "  4  4.0000"] := by decide

/-! ## Claims about the projection header -/

/-- Counterexample to claim C7 as stated: the projection-file header the
code writes has eleven lines, not nine; on a 1 x 1 x 1 grid the line at
index 9 (the tenth line) of the file is still a header comment line rather
than a data line. -/
theorem ct_header_not_nine_lines :
    (ctHeaderLines 1 1 1 1 1 1).length = 11 ∧ (11 : Nat) ≠ 9 ∧
    (create_ct_den_mat_file (loop_order_xy 1 1 1) order_indices_xy 1 1 1 1 1 1 [1] [1]
      [1])[(9 : Nat)]? = some "#  5th column: material. 6th column: organ ID" :=
  ⟨rfl, by decide, by decide⟩

/-- Claim C7 (amended): every projection file begins with the fixed
eleven-line descriptive header (enclosure limits in scientific notation,
voxel counts, column legend), and the whole header precedes all body
lines. -/
theorem ct_header_eleven_lines (loop_order : Nat × Nat × Nat)
    (order_indices : Nat → Nat → Nat → Nat × Nat × Nat) (n_vox_x n_vox_y n_vox_z : Nat)
    (len_x len_y len_z : ℚ) (arr_density : List ℚ) (arr_material arr_organ : List ℤ) :
    (ctHeaderLines n_vox_x n_vox_y n_vox_z len_x len_y len_z).length = 11 ∧
    (create_ct_den_mat_file loop_order order_indices n_vox_x n_vox_y n_vox_z len_x
      len_y len_z arr_density arr_material arr_organ).take 11 =
      ctHeaderLines n_vox_x n_vox_y n_vox_z len_x len_y len_z ∧
    (create_ct_den_mat_file loop_order order_indices n_vox_x n_vox_y n_vox_z len_x
      len_y len_z arr_density arr_material arr_organ).drop 11 =
      (ctBody loop_order order_indices n_vox_x n_vox_y arr_density arr_material
        arr_organ).map renderCtLine := by
  refine ⟨rfl, ?_, ?_⟩
  · have h : (11 : Nat) =
        (ctHeaderLines n_vox_x n_vox_y n_vox_z len_x len_y len_z).length := rfl
    rw [create_ct_den_mat_file, h, List.take_left]
  · have h : (11 : Nat) =
        (ctHeaderLines n_vox_x n_vox_y n_vox_z len_x len_y len_z).length := rfl
    rw [create_ct_den_mat_file, h, List.drop_left]

end ReadPhantom
